import Mathlib

/-!
Verification of the self-hosted ERC-4337 bundler service
(`scripts/setup-bundler.ts` of the passkey-poc repository).

The bundler is a JSON-RPC HTTP server.  We shallowly embed the request
processing pipeline:

  * the untyped JavaScript values that a parsed JSON body can put into a
    UserOperation field (`JsVal`), with JavaScript truthiness and the
    semantics of `BigInt(x)` and `x || "0x"`;
  * the normalization of an incoming UserOperation into the struct passed
    to the `handleOps` contract call (`formatUserOp`, from lines 124-134);
  * the per-method handlers and the dispatch in `processRequest`
    (lines 195-243), instrumented with an explicit trace of the external
    calls made (contract writes via the wallet client, and pass-through
    requests to the chain node);
  * the HTTP layer of `startBundler` (lines 249-287).

External collaborators (viem's wallet/public clients, the chain node) are
modelled as oracles supplied in a `BundlerEnv`; `JSON.parse` is a platform
primitive and is modelled by the classification of its outcome
(`RequestBody`).
-/

/-- Hex strings on the wire are plain strings. -/
abbrev Hex := String

/-- A JavaScript value that can sit in a field of the parsed JSON body:
`undefined` (absent field), `null`, a string, an integer number, or a
boolean.  (Fractional numbers never occur in the relevant inputs; an
integer-valued `num` suffices for truthiness and `BigInt` conversion.) -/
inductive JsVal where
  | undef : JsVal
  | null : JsVal
  | str : String → JsVal
  | num : Int → JsVal
  | bool : Bool → JsVal
  deriving DecidableEq, Repr

/-- JavaScript truthiness: `undefined`, `null`, `""`, `0` and `false` are
falsy, everything else modelled here is truthy. -/
def jsTruthy : JsVal → Bool
  | .undef => false
  | .null => false
  | .str s => !(s = "")
  | .num n => !(n = 0)
  | .bool b => b

/-- JavaScript `a || b`: `a` if truthy, otherwise `b`. -/
def jsOr (v d : JsVal) : JsVal :=
  if jsTruthy v then v else d

/-- JavaScript string whitespace, as trimmed by `BigInt`'s string
conversion (the common whitespace characters; exotic Unicode spaces are
not modelled). -/
def isJsWhitespace (c : Char) : Bool :=
  c = ' ' ∨ c = '\t' ∨ c = '\n' ∨ c = '\r' ∨ c = '\x0b' ∨ c = '\x0c'

/-- Strip leading and trailing whitespace from a character list. -/
def trimChars (cs : List Char) : List Char :=
  ((cs.dropWhile isJsWhitespace).reverse.dropWhile isJsWhitespace).reverse

/-- ASCII lower-casing of one character (`String.prototype.toLowerCase`
on the hex addresses at hand is ASCII case mapping). -/
def toLowerChar (c : Char) : Char :=
  if 'A' ≤ c ∧ c ≤ 'Z' then Char.ofNat (c.toNat + 32) else c

/-- JavaScript `s.toLowerCase()` on an ASCII string. -/
def toLowerString (s : String) : String :=
  String.mk (s.toList.map toLowerChar)

/-- Value of one hexadecimal digit character. -/
def hexDigitVal (c : Char) : Option Nat :=
  if '0' ≤ c ∧ c ≤ '9' then some (c.toNat - '0'.toNat)
  else if 'a' ≤ c ∧ c ≤ 'f' then some (c.toNat - 'a'.toNat + 10)
  else if 'A' ≤ c ∧ c ≤ 'F' then some (c.toNat - 'A'.toNat + 10)
  else none

/-- Parse a nonempty list of hexadecimal digit characters into a natural
number (arbitrary precision), most significant digit first. -/
def parseHexDigits : List Char → Option Nat
  | [] => none
  | cs => cs.foldlM (fun acc c => (hexDigitVal c).map (fun d => acc * 16 + d)) 0

/-- Value of one decimal digit character. -/
def decDigitVal (c : Char) : Option Nat :=
  if '0' ≤ c ∧ c ≤ '9' then some (c.toNat - '0'.toNat) else none

/-- Parse a nonempty list of decimal digit characters into a natural
number (arbitrary precision). -/
def parseDecDigits : List Char → Option Nat
  | [] => none
  | cs => cs.foldlM (fun acc c => (decDigitVal c).map (fun d => acc * 10 + d)) 0

/-- Semantics of JavaScript `BigInt(s)` on a string: leading/trailing
whitespace is ignored, the empty string is `0n`, a `0x`/`0X` prefix means
hexadecimal, an optional sign precedes a decimal numeral; anything else
throws (`none`).  (Binary `0b`/octal `0o` numerals, which never occur in
the inputs at hand, are not modelled.)  The result is an
arbitrary-precision integer. -/
def parseBigIntChars : List Char → Option Int
  | [] => some 0
  | '0' :: 'x' :: rest => (parseHexDigits rest).map Int.ofNat
  | '0' :: 'X' :: rest => (parseHexDigits rest).map Int.ofNat
  | '-' :: rest => (parseDecDigits rest).map (fun n => -(Int.ofNat n))
  | '+' :: rest => (parseDecDigits rest).map Int.ofNat
  | cs => (parseDecDigits cs).map Int.ofNat

/-- `BigInt` string conversion on a `String`. -/
def parseBigIntString (s : String) : Option Int :=
  parseBigIntChars (trimChars s.toList)

/-- Semantics of JavaScript `BigInt(v)`: `undefined` and `null` throw
(`none`), booleans become 0/1, integer numbers convert exactly, strings
are parsed as `BigInt` string conversion. -/
def jsBigInt : JsVal → Option Int
  | .undef => none
  | .null => none
  | .bool b => some (if b then 1 else 0)
  | .num n => some n
  | .str s => parseBigIntString s

/-- The incoming UserOperation object of an `eth_sendUserOperation`
request: each field is whatever JavaScript value the caller's JSON put
there (possibly absent). -/
structure UserOpInput where
  sender : JsVal
  nonce : JsVal
  initCode : JsVal
  callData : JsVal
  accountGasLimits : JsVal
  preVerificationGas : JsVal
  gasFees : JsVal
  paymasterAndData : JsVal
  signature : JsVal
  deriving DecidableEq, Repr

/-- The normalized UserOperation struct handed to the `handleOps` contract
call (the `formattedOp` object literal, lines 124-134).  `nonce` and
`preVerificationGas` have gone through `BigInt(...)`; the other fields are
passed through (TypeScript `as Hex` casts do nothing at runtime), with
`initCode`, `callData`, `paymasterAndData`, `signature` defaulted to
`"0x"` by `|| "0x"` when falsy. -/
structure FormattedOp where
  sender : JsVal
  nonce : Int
  initCode : JsVal
  callData : JsVal
  accountGasLimits : JsVal
  preVerificationGas : Int
  gasFees : JsVal
  paymasterAndData : JsVal
  signature : JsVal
  deriving DecidableEq, Repr

/-- Lines 124-134 of `setup-bundler.ts`: build `formattedOp` from the
incoming UserOperation.  `BigInt(userOp.nonce)` and
`BigInt(userOp.preVerificationGas)` throw on inconvertible values, which
aborts the construction (`none`). -/
def formatUserOp (u : UserOpInput) : Option FormattedOp :=
  match jsBigInt u.nonce, jsBigInt u.preVerificationGas with
  | some n, some pvg =>
      some { sender := u.sender
             nonce := n
             initCode := jsOr u.initCode (.str "0x")
             callData := jsOr u.callData (.str "0x")
             accountGasLimits := u.accountGasLimits
             preVerificationGas := pvg
             gasFees := u.gasFees
             paymasterAndData := jsOr u.paymasterAndData (.str "0x")
             signature := jsOr u.signature (.str "0x") }
  | _, _ => none

/-- `ENTRYPOINT_ADDRESS_V07` from `src/lib/constants.ts`. -/
def ENTRYPOINT_ADDRESS_V07 : Hex := "0x0000000071727De22E5E9d8BAf0edAc6f37da032"

/-- The bundler account's address: derived by viem's `privateKeyToAccount`
(external library) from `BUNDLER_PRIVATE_KEY`, the default Hardhat/Anvil
account 0. -/
def bundlerAddress : Hex := "0xf39Fd6e51aad88F6F4ce6aB8827279cffFb92266"

/-- One positional element of a JSON-RPC `params` array, as the bundler
distinguishes them: a UserOperation-shaped object, or any other JavaScript
value. -/
inductive ParamVal where
  | userOp : UserOpInput → ParamVal
  | val : JsVal → ParamVal
  deriving DecidableEq, Repr

/-- A `writeContract` invocation on the wallet client (lines 138-144):
target address, function name, the operations array, the beneficiary and
the explicit gas limit. -/
structure ContractCall where
  address : Hex
  functionName : String
  ops : List FormattedOp
  beneficiary : Hex
  gas : Int
  deriving DecidableEq, Repr

/-- Outcome of a `writeContract` call: the transaction hash, or a thrown
error with a message. -/
inductive CallResult where
  | success : Hex → CallResult
  | failure : String → CallResult
  deriving DecidableEq, Repr

/-- A JSON value appearing as a JSON-RPC result. -/
inductive RpcValue where
  | null : RpcValue
  | str : String → RpcValue
  | arr : List RpcValue → RpcValue
  | obj : List (String × RpcValue) → RpcValue

/-- An error thrown by the chain-node client on a forwarded request:
the JSON-RPC error code reported by the node and the thrown message. -/
structure NodeError where
  code : Int
  message : String
  deriving DecidableEq, Repr

/-- The external collaborators of one request: the wallet client's
`writeContract` and the public client's pass-through `request`.  The
node request receives the method name exactly as found on the parsed
body (`none` models a JavaScript `undefined` method). -/
structure BundlerEnv where
  writeContract : ContractCall → CallResult
  nodeRequest : Option String → List ParamVal → Except NodeError RpcValue

/-- An external call made while serving a request, for the call trace. -/
inductive ExternalCall where
  | contract : ContractCall → ExternalCall
  | node : Option String → List ParamVal → ExternalCall
  deriving DecidableEq, Repr

/-- A JSON-RPC request id: number, string, or null. -/
inductive RpcId where
  | num : Int → RpcId
  | str : String → RpcId
  | null : RpcId
  deriving DecidableEq, Repr

/-- A parsed JSON-RPC request body.  `method` is `none` when the parsed
object lacks a `method` field (JavaScript `undefined`). -/
structure JsonRpcRequest where
  method : Option String
  params : List ParamVal
  id : RpcId
  deriving Repr

/-- A JSON-RPC error object `{code, message}`. -/
structure RpcError where
  code : Int
  message : String
  deriving DecidableEq, Repr

/-- The JSON-RPC response assembled by `processRequest`. -/
structure JsonRpcResponse where
  jsonrpc : String
  result : Option RpcValue
  error : Option RpcError
  id : RpcId

/-- The `writeContract` invocation of lines 138-144, as a function of the
formatted operation: `handleOps` on the configured EntryPoint, a
single-element operations array, the bundler's own address as beneficiary
and the explicit 3,000,000 gas limit. -/
def handleOpsCall (op : FormattedOp) : ContractCall :=
  { address := ENTRYPOINT_ADDRESS_V07
    functionName := "handleOps"
    ops := [op]
    beneficiary := bundlerAddress
    gas := 3000000 }

/-- Lines 111-152, `handleSendUserOperation`, as a function of the wallet
oracle and the `params` array, returning the handler's outcome (result
hash or thrown error message) together with the contract calls it made.
Control flow of the source: destructure the two positional parameters;
`entryPointAddress.toLowerCase()` throws unless the parameter is a string;
mismatch with the configured EntryPoint throws before anything else;
normalization (`BigInt`) may throw; then exactly one `writeContract`
whose error, if any, is rethrown. -/
def handleSendUserOperation (writeContract : ContractCall → CallResult)
    (params : List ParamVal) : Except String Hex × List ExternalCall :=
  match params.get? 1 with
  | some (.val (.str entryPointAddress)) =>
      if toLowerString entryPointAddress ≠ toLowerString ENTRYPOINT_ADDRESS_V07 then
        (.error ("Unsupported entry point: " ++ entryPointAddress), [])
      else
        match params.get? 0 with
        | some (.userOp u) =>
            match formatUserOp u with
            | none => (.error "Cannot convert undefined to a BigInt", [])
            | some formattedOp =>
                match writeContract (handleOpsCall formattedOp) with
                | .success hash => (.ok hash, [.contract (handleOpsCall formattedOp)])
                | .failure msg => (.error msg, [.contract (handleOpsCall formattedOp)])
        | _ =>
            -- a non-object first parameter: every field access yields
            -- `undefined`, so `BigInt(userOp.nonce)` throws
            (.error "Cannot convert undefined to a BigInt", [])
  | _ =>
      -- `undefined`/non-string entryPointAddress: `.toLowerCase()` throws
      (.error "entryPointAddress.toLowerCase is not a function", [])

/-- Lines 157-168, `handleEstimateGas`: constant gas triple, the
parameters are ignored. -/
def handleEstimateGas (_params : List ParamVal) : RpcValue :=
  .obj [("preVerificationGas", .str "0xc350"),
        ("verificationGasLimit", .str "0x30d40"),
        ("callGasLimit", .str "0x30d40")]

/-- Lines 173-176, `handleGetUserOperationByHash`: always `null`. -/
def handleGetUserOperationByHash (_params : List ParamVal) : RpcValue :=
  .null

/-- Lines 181-183, `handleSupportedEntryPoints`. -/
def handleSupportedEntryPoints : RpcValue :=
  .arr [.str ENTRYPOINT_ADDRESS_V07]

/-- Lines 188-190, `handleChainId`: the fixed chain id 31337. -/
def handleChainId : RpcValue :=
  .str "0x7a69"

/-- Lines 220-225, the inline `pm_sponsorUserOperation` result. -/
def sponsorResult : RpcValue :=
  .obj [("paymasterAndData", .str "0x"),
        ("preVerificationGas", .str "0xc350"),
        ("verificationGasLimit", .str "0x30d40"),
        ("callGasLimit", .str "0x30d40")]

/-- Line 238: `error.message || "Internal error"`. -/
def errorMessageOrDefault (msg : String) : String :=
  if msg = "" then "Internal error" else msg

/-- The default arm of the `switch` (lines 227-233): forward the method
name and params verbatim to the chain node via `publicClient.request`;
a thrown node error is caught at line 235 into `{code: -32000, message}`. -/
def forwardRequest (env : BundlerEnv) (base : JsonRpcResponse)
    (m : Option String) (ps : List ParamVal) :
    JsonRpcResponse × List ExternalCall :=
  match env.nodeRequest m ps with
  | .ok v => ({ base with result := some v }, [.node m ps])
  | .error e =>
      ({ base with error := some ⟨-32000, errorMessageOrDefault e.message⟩ },
       [.node m ps])

/-- Lines 195-243, `processRequest`: dispatch on the method name (a
JavaScript `switch`, embedded as an equality chain), catch every thrown
error into a `{code: -32000, message}` JSON-RPC error, echo the request
id.  A parsed body without a `method` field dispatches to the default
arm, like any unrecognized method.  Returns the response together with
the trace of external calls made. -/
def processRequest (env : BundlerEnv) (request : JsonRpcRequest) :
    JsonRpcResponse × List ExternalCall :=
  let base : JsonRpcResponse :=
    { jsonrpc := "2.0", result := none, error := none, id := request.id }
  match request.method with
  | none => forwardRequest env base none request.params
  | some m =>
      if m = "eth_sendUserOperation" then
        match handleSendUserOperation env.writeContract request.params with
        | (.ok hash, calls) => ({ base with result := some (.str hash) }, calls)
        | (.error msg, calls) =>
            ({ base with error := some ⟨-32000, errorMessageOrDefault msg⟩ }, calls)
      else if m = "eth_estimateUserOperationGas" then
        ({ base with result := some (handleEstimateGas request.params) }, [])
      else if m = "eth_getUserOperationByHash" then
        ({ base with result := some (handleGetUserOperationByHash request.params) }, [])
      else if m = "eth_supportedEntryPoints" then
        ({ base with result := some handleSupportedEntryPoints }, [])
      else if m = "eth_chainId" then
        ({ base with result := some handleChainId }, [])
      else if m = "pm_sponsorUserOperation" then
        ({ base with result := some sponsorResult }, [])
      else
        forwardRequest env base (some m) request.params

/-- The HTTP verb of an incoming request, as the server distinguishes
verbs (lines 255-265): `OPTIONS`, `POST`, anything else. -/
inductive HttpMethod where
  | OPTIONS : HttpMethod
  | POST : HttpMethod
  | other : String → HttpMethod
  deriving DecidableEq, Repr

/-- The outcome of `JSON.parse` on the accumulated body (a platform
primitive, modelled by classification): a throw (`malformed`), a parse to
`null`/`undefined` on which the later `request.method` property access
throws, or a parse to a value carrying the fields of interest. -/
inductive RequestBody where
  | malformed : RequestBody
  | parsedNull : RequestBody
  | parsed : JsonRpcRequest → RequestBody

/-- The HTTP response: status code, and the JSON-RPC response body when
one was produced. -/
structure HttpResponse where
  status : Nat
  rpcBody : Option JsonRpcResponse

/-- Lines 249-287, the request handler of `startBundler`: `OPTIONS` →
204; non-`POST` → 405; a body on which `JSON.parse` (or the subsequent
`request.method` access) throws → 400; otherwise `processRequest` runs
and its response is written with status 200. -/
def handleHttp (env : BundlerEnv) (verb : HttpMethod) (body : RequestBody) :
    HttpResponse × List ExternalCall :=
  match verb with
  | .OPTIONS => ({ status := 204, rpcBody := none }, [])
  | .other _ => ({ status := 405, rpcBody := none }, [])
  | .POST =>
      match body with
      | .malformed => ({ status := 400, rpcBody := none }, [])
      | .parsedNull => ({ status := 400, rpcBody := none }, [])
      | .parsed r =>
          let (resp, calls) := processRequest env r
          ({ status := 200, rpcBody := some resp }, calls)

/-! ## Test fixtures: concrete requests and oracle environments -/

/-- A fully-populated incoming UserOperation. -/
def sampleUserOp : UserOpInput :=
  { sender := .str "0x1111111111111111111111111111111111111111"
    nonce := .str "0x1"
    initCode := .str "0x"
    callData := .str "0xdeadbeef"
    accountGasLimits := .str "0x0000000000000000000000000000c3500000000000000000000000000030d40"
    preVerificationGas := .str "0xc350"
    gasFees := .str "0x0000000000000000000000003b9aca00000000000000000000000000b2d05e00"
    paymasterAndData := .str "0x"
    signature := .str "0x1234"
    }

/-- The normalized form of `sampleUserOp`. -/
def sampleFormattedOp : FormattedOp :=
  { sender := .str "0x1111111111111111111111111111111111111111"
    nonce := 1
    initCode := .str "0x"
    callData := .str "0xdeadbeef"
    accountGasLimits := .str "0x0000000000000000000000000000c3500000000000000000000000000030d40"
    preVerificationGas := 50000
    gasFees := .str "0x0000000000000000000000003b9aca00000000000000000000000000b2d05e00"
    paymasterAndData := .str "0x"
    signature := .str "0x1234"
    }

/-- An environment whose wallet client accepts every submission and whose
node answers every forwarded request with `null`. -/
def okEnv : BundlerEnv :=
  { writeContract := fun _ => .success "0xtxhash"
    nodeRequest := fun _ _ => .ok .null }

/-- An environment whose node rejects every forwarded request with a
JSON-RPC error of code -32601. -/
def nodeErrEnv : BundlerEnv :=
  { writeContract := fun _ => .success "0xtxhash"
    nodeRequest := fun _ _ => .error ⟨-32601, "method not found"⟩ }

/-- `sampleUserOp` with the `callData` field absent. -/
def noCallDataUserOp : UserOpInput :=
  { sampleUserOp with callData := .undef }

/-- The normalized form of `noCallDataUserOp`: `callData` defaulted. -/
def noCallDataFormattedOp : FormattedOp :=
  { sampleFormattedOp with callData := .str "0x" }

/-- `sampleUserOp` with the `nonce` field absent. -/
def noNonceUserOp : UserOpInput :=
  { sampleUserOp with nonce := .undef }

/-! ## Helper lemmas -/

/-- When the EntryPoint parameter matches (case-insensitively),
normalization succeeds and the wallet client returns a hash,
`handleSendUserOperation` returns that hash and its trace is the single
`handleOps` call. -/
theorem handleSend_success (wc : ContractCall → CallResult) (u : UserOpInput)
    (ep : String) (op : FormattedOp) (h : Hex)
    (hep : toLowerString ep = toLowerString ENTRYPOINT_ADDRESS_V07)
    (hfmt : formatUserOp u = some op)
    (hwc : wc (handleOpsCall op) = .success h) :
    handleSendUserOperation wc [.userOp u, .val (.str ep)] =
      (.ok h, [.contract (handleOpsCall op)]) := by
  simp [handleSendUserOperation, hep, hfmt, hwc]

/-- Field-by-field description of a successful normalization: the numeric
fields went through `BigInt`, the four bytes fields through `|| "0x"`,
and `sender`, `accountGasLimits`, `gasFees` are passed through unchanged. -/
theorem formatUserOp_fields (u : UserOpInput) (op : FormattedOp)
    (hfmt : formatUserOp u = some op) :
    jsBigInt u.nonce = some op.nonce ∧
    jsBigInt u.preVerificationGas = some op.preVerificationGas ∧
    op.sender = u.sender ∧
    op.accountGasLimits = u.accountGasLimits ∧
    op.gasFees = u.gasFees ∧
    op.initCode = jsOr u.initCode (.str "0x") ∧
    op.callData = jsOr u.callData (.str "0x") ∧
    op.paymasterAndData = jsOr u.paymasterAndData (.str "0x") ∧
    op.signature = jsOr u.signature (.str "0x") := by
  unfold formatUserOp at hfmt
  cases hn : jsBigInt u.nonce with
  | none => rw [hn] at hfmt; cases hfmt
  | some n =>
      cases hp : jsBigInt u.preVerificationGas with
      | none => rw [hn, hp] at hfmt; cases hfmt
      | some pvg =>
          rw [hn, hp] at hfmt
          cases hfmt
          exact ⟨rfl, rfl, rfl, rfl, rfl, rfl, rfl, rfl, rfl⟩

/-- A normalization aborts exactly when one of the two `BigInt`
conversions throws. -/
theorem formatUserOp_none (u : UserOpInput)
    (h : jsBigInt u.nonce = none ∨ jsBigInt u.preVerificationGas = none) :
    formatUserOp u = none := by
  unfold formatUserOp
  rcases h with h | h
  · rw [h]
  · rw [h]; cases jsBigInt u.nonce <;> rfl

/-! ## Claim theorems -/

/-- C1: for every `eth_sendUserOperation` request whose EntryPoint
parameter case-insensitively equals the configured EntryPoint address
(and whose UserOperation normalizes, the wallet client accepting the
submission with hash `h`), the service makes exactly one `handleOps`
contract call whose operations argument is the single-element list
containing the normalized UserOperation and whose beneficiary is the
bundler account's own address, and the JSON-RPC result is exactly the
transaction hash returned by that call. -/
theorem send_userop_submits_single_handleops (env : BundlerEnv)
    (u : UserOpInput) (ep : String) (i : RpcId) (op : FormattedOp) (h : Hex)
    (hep : toLowerString ep = toLowerString ENTRYPOINT_ADDRESS_V07)
    (hfmt : formatUserOp u = some op)
    (hwc : env.writeContract (handleOpsCall op) = .success h) :
    processRequest env
      { method := some "eth_sendUserOperation"
        params := [.userOp u, .val (.str ep)], id := i } =
      ({ jsonrpc := "2.0", result := some (.str h), error := none, id := i },
       [.contract (handleOpsCall op)]) ∧
    (handleOpsCall op).functionName = "handleOps" ∧
    (handleOpsCall op).ops = [op] ∧
    (handleOpsCall op).beneficiary = bundlerAddress := by
  refine ⟨?_, rfl, rfl, rfl⟩
  have hh := handleSend_success env.writeContract u ep op h hep hfmt hwc
  simp [processRequest, hh]

/-- Witness for C1: the sample UserOperation, submitted against an
upper-cased spelling of the configured EntryPoint, in the accepting
environment. -/
theorem send_userop_submits_single_handleops_witness :
    processRequest okEnv
      { method := some "eth_sendUserOperation"
        params := [.userOp sampleUserOp,
                   .val (.str "0x0000000071727DE22E5E9D8BAF0EDAC6F37DA032")]
        id := .num 7 } =
      ({ jsonrpc := "2.0", result := some (.str "0xtxhash"), error := none,
         id := .num 7 },
       [.contract (handleOpsCall sampleFormattedOp)]) ∧
    (handleOpsCall sampleFormattedOp).functionName = "handleOps" ∧
    (handleOpsCall sampleFormattedOp).ops = [sampleFormattedOp] ∧
    (handleOpsCall sampleFormattedOp).beneficiary = bundlerAddress :=
  send_userop_submits_single_handleops okEnv sampleUserOp
    "0x0000000071727DE22E5E9D8BAF0EDAC6F37DA032" (.num 7) sampleFormattedOp
    "0xtxhash" (by decide) (by decide) rfl

/-- C2: for every `eth_sendUserOperation` request whose EntryPoint
parameter differs case-insensitively from the configured EntryPoint
address, the service returns a JSON-RPC error (error populated, no
result) and makes zero external calls to the chain node. -/
theorem wrong_entrypoint_rejected_no_calls (env : BundlerEnv)
    (ps : List ParamVal) (ep : String) (i : RpcId)
    (hp : ps.get? 1 = some (.val (.str ep)))
    (hep : toLowerString ep ≠ toLowerString ENTRYPOINT_ADDRESS_V07) :
    (processRequest env
      { method := some "eth_sendUserOperation", params := ps, id := i }).1.error.isSome
        = true ∧
    (processRequest env
      { method := some "eth_sendUserOperation", params := ps, id := i }).1.result
        = none ∧
    (processRequest env
      { method := some "eth_sendUserOperation", params := ps, id := i }).2 = [] := by
  have hh : handleSendUserOperation env.writeContract ps =
      (.error ("Unsupported entry point: " ++ ep), []) := by
    unfold handleSendUserOperation
    rw [hp]
    simp [hep]
  refine ⟨?_, ?_, ?_⟩ <;> simp [processRequest, hh]

/-- Witness for C2: a request naming `0xWRONGADDRESS` as EntryPoint. -/
theorem wrong_entrypoint_rejected_no_calls_witness :
    (processRequest okEnv
      { method := some "eth_sendUserOperation"
        params := [.userOp sampleUserOp, .val (.str "0xWRONGADDRESS")]
        id := .num 2 }).1.error.isSome = true ∧
    (processRequest okEnv
      { method := some "eth_sendUserOperation"
        params := [.userOp sampleUserOp, .val (.str "0xWRONGADDRESS")]
        id := .num 2 }).1.result = none ∧
    (processRequest okEnv
      { method := some "eth_sendUserOperation"
        params := [.userOp sampleUserOp, .val (.str "0xWRONGADDRESS")]
        id := .num 2 }).2 = [] :=
  wrong_entrypoint_rejected_no_calls okEnv
    [.userOp sampleUserOp, .val (.str "0xWRONGADDRESS")] "0xWRONGADDRESS"
    (.num 2) rfl (by decide)

/-- C5: `eth_estimateUserOperationGas` returns exactly the constant
triple `{preVerificationGas: "0xc350", verificationGasLimit: "0x30d40",
callGasLimit: "0x30d40"}` for every environment, parameter list and id,
with no external calls. -/
theorem estimate_gas_constant_triple (env : BundlerEnv) (ps : List ParamVal)
    (i : RpcId) :
    processRequest env
      { method := some "eth_estimateUserOperationGas", params := ps, id := i } =
      ({ jsonrpc := "2.0"
         result := some (.obj [("preVerificationGas", .str "0xc350"),
                               ("verificationGasLimit", .str "0x30d40"),
                               ("callGasLimit", .str "0x30d40")])
         error := none, id := i }, []) := rfl

/-- C6: `eth_supportedEntryPoints` returns the one-element array holding
the configured EntryPoint address
`0x0000000071727De22E5E9d8BAf0edAc6f37da032`, for every environment,
parameter list and id (so irrespective of request history), with no
external calls. -/
theorem supported_entrypoints_single_config (env : BundlerEnv)
    (ps : List ParamVal) (i : RpcId) :
    processRequest env
      { method := some "eth_supportedEntryPoints", params := ps, id := i } =
      ({ jsonrpc := "2.0"
         result := some (.arr [.str "0x0000000071727De22E5E9d8BAf0edAc6f37da032"])
         error := none, id := i }, []) := rfl

/-- C9: for every request that reaches JSON-RPC processing, the response
echoes the request's id verbatim (the id type covers numeric, string and
null ids), and carries `jsonrpc: "2.0"`. -/
theorem response_echoes_request_id (env : BundlerEnv) (r : JsonRpcRequest) :
    (processRequest env r).1.id = r.id ∧
    (processRequest env r).1.jsonrpc = "2.0" := by
  rcases r with ⟨m, ps, i⟩
  unfold processRequest forwardRequest
  cases m <;> dsimp only <;> (repeat' split) <;> simp_all

/-- C10: the handlers for `eth_estimateUserOperationGas`,
`eth_getUserOperationByHash`, `eth_supportedEntryPoints`, `eth_chainId`
and `pm_sponsorUserOperation` are pure and deterministic: for every
environment (so with no dependence on the chain node or any contract)
and every parameter list, the response is the indicated compile-time
constant and the external-call trace is empty. -/
theorem constant_method_handlers (env : BundlerEnv) (ps : List ParamVal)
    (i : RpcId) :
    processRequest env
      { method := some "eth_estimateUserOperationGas", params := ps, id := i } =
      ({ jsonrpc := "2.0"
         result := some (.obj [("preVerificationGas", .str "0xc350"),
                               ("verificationGasLimit", .str "0x30d40"),
                               ("callGasLimit", .str "0x30d40")])
         error := none, id := i }, []) ∧
    processRequest env
      { method := some "eth_getUserOperationByHash", params := ps, id := i } =
      ({ jsonrpc := "2.0", result := some .null, error := none, id := i }, []) ∧
    processRequest env
      { method := some "eth_supportedEntryPoints", params := ps, id := i } =
      ({ jsonrpc := "2.0"
         result := some (.arr [.str "0x0000000071727De22E5E9d8BAf0edAc6f37da032"])
         error := none, id := i }, []) ∧
    processRequest env
      { method := some "eth_chainId", params := ps, id := i } =
      ({ jsonrpc := "2.0", result := some (.str "0x7a69"), error := none,
         id := i }, []) ∧
    processRequest env
      { method := some "pm_sponsorUserOperation", params := ps, id := i } =
      ({ jsonrpc := "2.0"
         result := some (.obj [("paymasterAndData", .str "0x"),
                               ("preVerificationGas", .str "0xc350"),
                               ("verificationGasLimit", .str "0x30d40"),
                               ("callGasLimit", .str "0x30d40")])
         error := none, id := i }, []) :=
  ⟨rfl, rfl, rfl, rfl, rfl⟩

/-- `sampleUserOp` with the `preVerificationGas` field absent. -/
def noPvgUserOp : UserOpInput :=
  { sampleUserOp with preVerificationGas := .undef }

/-- The pass-through arm always makes exactly one node call, with the
method and params verbatim. -/
theorem forwardRequest_trace (env : BundlerEnv) (base : JsonRpcResponse)
    (m : Option String) (ps : List ParamVal) :
    (forwardRequest env base m ps).2 = [.node m ps] := by
  unfold forwardRequest
  cases env.nodeRequest m ps <;> rfl

/-- C3 counterexample: a UserOperation missing the required `callData`
field is not rejected — the request proceeds to submission (one
`handleOps` call is made, with `callData` silently defaulted to `0x`)
and succeeds. -/
theorem missing_callData_proceeds :
    noCallDataUserOp.callData = .undef ∧
    processRequest okEnv
      { method := some "eth_sendUserOperation"
        params := [.userOp noCallDataUserOp, .val (.str ENTRYPOINT_ADDRESS_V07)]
        id := .num 3 } =
      ({ jsonrpc := "2.0", result := some (.str "0xtxhash"), error := none,
         id := .num 3 },
       [.contract (handleOpsCall noCallDataFormattedOp)]) := ⟨rfl, by rfl⟩

/-- C3 (amended): `eth_sendUserOperation` performs no structural field
validation.  A UserOperation whose `nonce` is absent fails with a generic
`BigInt` conversion error (not a message naming the missing field) and no
submission is attempted; a UserOperation missing only `callData` is
defaulted to `0x` and proceeds to submission. -/
theorem send_userop_no_field_validation :
    (∀ (env : BundlerEnv) (u : UserOpInput) (ep : String) (i : RpcId),
       toLowerString ep = toLowerString ENTRYPOINT_ADDRESS_V07 →
       u.nonce = .undef →
       (processRequest env
         { method := some "eth_sendUserOperation"
           params := [.userOp u, .val (.str ep)], id := i }).1.error =
         some ⟨-32000, "Cannot convert undefined to a BigInt"⟩ ∧
       (processRequest env
         { method := some "eth_sendUserOperation"
           params := [.userOp u, .val (.str ep)], id := i }).2 = []) ∧
    (∀ (env : BundlerEnv) (u : UserOpInput) (ep : String) (i : RpcId)
       (op : FormattedOp) (h : Hex),
       toLowerString ep = toLowerString ENTRYPOINT_ADDRESS_V07 →
       u.callData = .undef →
       formatUserOp u = some op →
       env.writeContract (handleOpsCall op) = .success h →
       op.callData = .str "0x" ∧
       (processRequest env
         { method := some "eth_sendUserOperation"
           params := [.userOp u, .val (.str ep)], id := i }).1.result =
         some (.str h) ∧
       (processRequest env
         { method := some "eth_sendUserOperation"
           params := [.userOp u, .val (.str ep)], id := i }).2 =
         [.contract (handleOpsCall op)]) := by
  constructor
  · intro env u ep i hep hn
    have hfmt : formatUserOp u = none :=
      formatUserOp_none u (Or.inl (by rw [hn]; rfl))
    have hh : handleSendUserOperation env.writeContract
        [.userOp u, .val (.str ep)] =
        (.error "Cannot convert undefined to a BigInt", []) := by
      simp [handleSendUserOperation, hep, hfmt]
    constructor
    · simp [processRequest, hh]
      rfl
    · simp [processRequest, hh]
  · intro env u ep i op h hep hcd hfmt hwc
    have hfields := formatUserOp_fields u op hfmt
    have hcall := handleSend_success env.writeContract u ep op h hep hfmt hwc
    refine ⟨?_, ?_, ?_⟩
    · rw [hfields.2.2.2.2.2.2.1, hcd]
      rfl
    · simp [processRequest, hcall]
    · simp [processRequest, hcall]

/-- Witness for C3 (amended): the missing-`nonce` and missing-`callData`
sample operations in the accepting environment. -/
theorem send_userop_no_field_validation_witness :
    ((processRequest okEnv
      { method := some "eth_sendUserOperation"
        params := [.userOp noNonceUserOp, .val (.str ENTRYPOINT_ADDRESS_V07)]
        id := .num 5 }).1.error =
      some ⟨-32000, "Cannot convert undefined to a BigInt"⟩ ∧
     (processRequest okEnv
      { method := some "eth_sendUserOperation"
        params := [.userOp noNonceUserOp, .val (.str ENTRYPOINT_ADDRESS_V07)]
        id := .num 5 }).2 = []) ∧
    (noCallDataFormattedOp.callData = .str "0x" ∧
     (processRequest okEnv
      { method := some "eth_sendUserOperation"
        params := [.userOp noCallDataUserOp, .val (.str ENTRYPOINT_ADDRESS_V07)]
        id := .num 6 }).1.result = some (.str "0xtxhash") ∧
     (processRequest okEnv
      { method := some "eth_sendUserOperation"
        params := [.userOp noCallDataUserOp, .val (.str ENTRYPOINT_ADDRESS_V07)]
        id := .num 6 }).2 = [.contract (handleOpsCall noCallDataFormattedOp)]) :=
  ⟨send_userop_no_field_validation.1 okEnv noNonceUserOp ENTRYPOINT_ADDRESS_V07
    (.num 5) rfl rfl,
   send_userop_no_field_validation.2 okEnv noCallDataUserOp
    ENTRYPOINT_ADDRESS_V07 (.num 6) noCallDataFormattedOp "0xtxhash" rfl rfl
    (by decide) rfl⟩

/-- C4 counterexample: a UserOperation whose `nonce` field is absent is
rejected (JSON-RPC error, no submission) rather than having the field
defaulted to zero. -/
theorem absent_nonce_rejected :
    noNonceUserOp.nonce = .undef ∧
    (processRequest okEnv
      { method := some "eth_sendUserOperation"
        params := [.userOp noNonceUserOp, .val (.str ENTRYPOINT_ADDRESS_V07)]
        id := .num 4 }).1.result = none ∧
    (processRequest okEnv
      { method := some "eth_sendUserOperation"
        params := [.userOp noNonceUserOp, .val (.str ENTRYPOINT_ADDRESS_V07)]
        id := .num 4 }).1.error =
      some ⟨-32000, "Cannot convert undefined to a BigInt"⟩ ∧
    (processRequest okEnv
      { method := some "eth_sendUserOperation"
        params := [.userOp noNonceUserOp, .val (.str ENTRYPOINT_ADDRESS_V07)]
        id := .num 4 }).2 = [] := ⟨rfl, rfl, rfl, rfl⟩

/-- C4 (amended): normalization converts the numeric fields `nonce` and
`preVerificationGas` through arbitrary-precision `BigInt` conversion and
defaults the bytes fields `initCode`, `callData`, `paymasterAndData`,
`signature` to `0x` when absent or falsy, while `sender`,
`accountGasLimits` and `gasFees` are passed through without defaulting —
but an absent numeric field (`nonce` or `preVerificationGas`) causes the
request to be rejected, not defaulted to zero. -/
theorem normalization_defaults_and_rejections :
    (∀ (u : UserOpInput) (op : FormattedOp), formatUserOp u = some op →
       jsBigInt u.nonce = some op.nonce ∧
       jsBigInt u.preVerificationGas = some op.preVerificationGas ∧
       op.sender = u.sender ∧
       op.accountGasLimits = u.accountGasLimits ∧
       op.gasFees = u.gasFees ∧
       op.initCode = jsOr u.initCode (.str "0x") ∧
       op.callData = jsOr u.callData (.str "0x") ∧
       op.paymasterAndData = jsOr u.paymasterAndData (.str "0x") ∧
       op.signature = jsOr u.signature (.str "0x")) ∧
    (∀ u : UserOpInput, u.nonce = .undef → formatUserOp u = none) ∧
    (∀ u : UserOpInput, u.preVerificationGas = .undef → formatUserOp u = none) :=
  ⟨formatUserOp_fields,
   fun u hn => formatUserOp_none u (Or.inl (by rw [hn]; rfl)),
   fun u hp => formatUserOp_none u (Or.inr (by rw [hp]; rfl))⟩

/-- Witness for C4 (amended): the sample operation normalizes with the
stated field-wise relationship, and the absent-`nonce` /
absent-`preVerificationGas` variants abort normalization. -/
theorem normalization_defaults_and_rejections_witness :
    (jsBigInt sampleUserOp.nonce = some sampleFormattedOp.nonce ∧
     jsBigInt sampleUserOp.preVerificationGas =
       some sampleFormattedOp.preVerificationGas ∧
     sampleFormattedOp.sender = sampleUserOp.sender ∧
     sampleFormattedOp.accountGasLimits = sampleUserOp.accountGasLimits ∧
     sampleFormattedOp.gasFees = sampleUserOp.gasFees ∧
     sampleFormattedOp.initCode = jsOr sampleUserOp.initCode (.str "0x") ∧
     sampleFormattedOp.callData = jsOr sampleUserOp.callData (.str "0x") ∧
     sampleFormattedOp.paymasterAndData =
       jsOr sampleUserOp.paymasterAndData (.str "0x") ∧
     sampleFormattedOp.signature = jsOr sampleUserOp.signature (.str "0x")) ∧
    formatUserOp noNonceUserOp = none ∧
    formatUserOp noPvgUserOp = none :=
  ⟨normalization_defaults_and_rejections.1 sampleUserOp sampleFormattedOp
     (by decide),
   normalization_defaults_and_rejections.2.1 noNonceUserOp rfl,
   normalization_defaults_and_rejections.2.2 noPvgUserOp rfl⟩

/-- C7 counterexample: the node answers a forwarded `eth_blockNumber`
with a JSON-RPC error of code -32601, but the caller receives an error
object with code -32000 (the message is preserved, the code is not) — so
the node's own error is not returned unchanged. -/
theorem forwarded_error_code_rewritten :
    nodeErrEnv.nodeRequest (some "eth_blockNumber") [] =
      .error ⟨-32601, "method not found"⟩ ∧
    (processRequest nodeErrEnv
      { method := some "eth_blockNumber", params := [], id := .num 1 }).1.error =
      some ⟨-32000, "method not found"⟩ ∧
    (-32601 : Int) < -32000 := ⟨rfl, rfl, by decide⟩

/-- C7 (amended): every request whose method is not one of the six
recognized methods is forwarded — exactly that method name and those
params, unmodified — to the chain node in exactly one call; on success
the node's raw result is the JSON-RPC result unchanged, and on failure
the response is a JSON-RPC error with fixed code -32000 carrying the
node error's message (or "Internal error" when that message is empty). -/
theorem unknown_method_forwarded_verbatim (env : BundlerEnv) (m : String)
    (ps : List ParamVal) (i : RpcId)
    (h1 : m ≠ "eth_sendUserOperation")
    (h2 : m ≠ "eth_estimateUserOperationGas")
    (h3 : m ≠ "eth_getUserOperationByHash")
    (h4 : m ≠ "eth_supportedEntryPoints")
    (h5 : m ≠ "eth_chainId")
    (h6 : m ≠ "pm_sponsorUserOperation") :
    (processRequest env { method := some m, params := ps, id := i }).2 =
      [.node (some m) ps] ∧
    (∀ v, env.nodeRequest (some m) ps = .ok v →
       (processRequest env { method := some m, params := ps, id := i }).1.result =
         some v ∧
       (processRequest env { method := some m, params := ps, id := i }).1.error =
         none) ∧
    (∀ e, env.nodeRequest (some m) ps = .error e →
       (processRequest env { method := some m, params := ps, id := i }).1.result =
         none ∧
       (processRequest env { method := some m, params := ps, id := i }).1.error =
         some ⟨-32000, errorMessageOrDefault e.message⟩) := by
  have hd : processRequest env { method := some m, params := ps, id := i } =
      forwardRequest env
        { jsonrpc := "2.0", result := none, error := none, id := i }
        (some m) ps := by
    simp [processRequest, h1, h2, h3, h4, h5, h6]
  refine ⟨?_, ?_, ?_⟩
  · rw [hd, forwardRequest_trace]
  · intro v hv
    rw [hd]
    unfold forwardRequest
    rw [hv]
    exact ⟨rfl, rfl⟩
  · intro e he
    rw [hd]
    unfold forwardRequest
    rw [he]
    exact ⟨rfl, rfl⟩

/-- Witness for C7 (amended): a forwarded `eth_blockNumber` against the
erroring node environment. -/
theorem unknown_method_forwarded_verbatim_witness :
    (processRequest nodeErrEnv
      { method := some "eth_blockNumber", params := [], id := .num 9 }).2 =
      [.node (some "eth_blockNumber") []] ∧
    (processRequest nodeErrEnv
      { method := some "eth_blockNumber", params := [], id := .num 9 }).1.result =
      none ∧
    (processRequest nodeErrEnv
      { method := some "eth_blockNumber", params := [], id := .num 9 }).1.error =
      some ⟨-32000, "method not found"⟩ :=
  have ht := unknown_method_forwarded_verbatim nodeErrEnv "eth_blockNumber" []
    (.num 9) (by decide) (by decide) (by decide) (by decide) (by decide)
    (by decide)
  ⟨ht.1, (ht.2.2 ⟨-32601, "method not found"⟩ rfl).1,
   (ht.2.2 ⟨-32601, "method not found"⟩ rfl).2⟩

/-- C8 counterexample: a POST whose body is valid JSON but lacks a
`method` field receives HTTP 200 (not a 4xx), and is even forwarded to
the chain node. -/
theorem missing_method_yields_200 :
    (handleHttp nodeErrEnv .POST
      (.parsed { method := none, params := [], id := .num 1 })).1.status = 200 ∧
    200 < 400 ∧
    (handleHttp nodeErrEnv .POST
      (.parsed { method := none, params := [], id := .num 1 })).2 =
      [.node none []] := ⟨rfl, by decide, rfl⟩

/-- C8 (amended): a request whose body is unparseable JSON (or parses to
`null`) receives HTTP 400; every body that parses to an object —
including one lacking a `method` field, which proceeds to JSON-RPC
processing — receives HTTP 200 (also when the JSON-RPC response carries
an error object); no request yields a 5xx. -/
theorem http_status_classes (env : BundlerEnv) (verb : HttpMethod)
    (body : RequestBody) (r : JsonRpcRequest) :
    (handleHttp env .POST .malformed).1.status = 400 ∧
    (handleHttp env .POST .parsedNull).1.status = 400 ∧
    (handleHttp env .POST (.parsed r)).1.status = 200 ∧
    (handleHttp env verb body).1.status < 500 := by
  refine ⟨rfl, rfl, rfl, ?_⟩
  cases verb <;> cases body <;> simp [handleHttp]
